import Mathlib

/-!
Shallow embedding of the book-store CRUD service in src/main.rs.

The store state is the Vec<Book> guarded by the RwLock, modelled as a
List Book.  Each actix handler takes the current state and yields the
HTTP response together with the state after the operation; handlers that
only take a read lock return the state unchanged.  Rust i32 arithmetic
in release mode wraps, so the id computation `books.len() as i32 + 1`
is modelled by `wrap32`.
-/

/-- The persisted entity, struct Book of src/main.rs (lines 10-15).
The Rust field has type i32; its value is an integer in
[-2^31, 2^31), produced by `wrap32`. -/
structure Book where
  id : Int
  title : String
  author : String
deriving DecidableEq, Repr

/-- Transient create/update input, struct NewBook (lines 17-22). -/
structure NewBook where
  title : String
  author : String
deriving DecidableEq, Repr

/-- The HTTP responses the five handlers can build. -/
inductive Response where
  | okBooks (body : List Book)
  | okBook (body : Book)
  | created (body : Book)
  | okText (body : String)
  | notFound (body : String)
deriving DecidableEq, Repr

/-- HTTP status code of each response constructor. -/
def Response.status : Response → Nat
  | .okBooks _ => 200
  | .okBook _ => 200
  | .okText _ => 200
  | .created _ => 201
  | .notFound _ => 404

/-- Two's-complement value of `n` truncated to 32 bits: the result of
the Rust cast and add `len as i32 + 1` in release mode. -/
def wrap32 (n : Nat) : Int :=
  (((n + 2 ^ 31) % 2 ^ 32 : Nat) : Int) - 2 ^ 31

/-- Handler get_books (lines 33-38): takes the read lock, clones the
vector and returns it as the body.  Read-only. -/
def get_books (books : List Book) : Response × List Book :=
  (Response.okBooks books, books)

/-- Handler get_book (lines 41-49): `books.iter().find(|b| b.id == *id)`,
responding 200 with the first match or 404. Read-only. -/
def get_book (id : Int) (books : List Book) : Response × List Book :=
  match books.find? (fun b => b.id == id) with
  | some book => (Response.okBook book, books)
  | none => (Response.notFound "Book not found", books)

/-- Handler create_book (lines 52-63): `let id = books.len() as i32 + 1`,
push the new book, respond 201 with it. -/
def create_book (new_book : NewBook) (books : List Book) : Response × List Book :=
  let id := wrap32 (books.length + 1)
  let book : Book := { id := id, title := new_book.title, author := new_book.author }
  (Response.created book, books ++ [book])

/-- Handler update_book (lines 66-78): `books.iter_mut().find(|b| b.id == *id)`;
on a match both fields of that element are overwritten in place and the
updated book is returned, otherwise 404.  The recursion walks the vector
exactly as the iterator does: the first match is mutated, the rest is
untouched. -/
def update_book (id : Int) (new_book : NewBook) (books : List Book) :
    Response × List Book :=
  match books with
  | [] => (Response.notFound "Book not found", [])
  | b :: rest =>
    if b.id == id then
      let b2 : Book := { b with title := new_book.title, author := new_book.author }
      (Response.okBook b2, b2 :: rest)
    else
      let p := update_book id new_book rest
      (p.1, b :: p.2)

/-- Handler delete_book (lines 81-92): `books.iter().position(|b| b.id == *id)`
then `books.remove(index)` (shift-preserving removal), otherwise 404. -/
def delete_book (id : Int) (books : List Book) : Response × List Book :=
  match books.findIdx? (fun b => b.id == id) with
  | some index => (Response.okText "Book deleted", books.eraseIdx index)
  | none => (Response.notFound "Book not found", books)

/-- One mutating or reading request against the store. -/
inductive Op where
  | create (nb : NewBook)
  | update (id : Int) (nb : NewBook)
  | delete (id : Int)
deriving DecidableEq, Repr

/-- Whether an operation is a delete request. -/
def Op.isDelete : Op → Bool
  | .delete _ => true
  | _ => false

/-- State after serving one request (the RwLock serializes them). -/
def applyOp (books : List Book) : Op → List Book
  | Op.create nb => (create_book nb books).2
  | Op.update id nb => (update_book id nb books).2
  | Op.delete id => (delete_book id books).2

/-- State reached from the empty store after a sequence of requests. -/
def run (ops : List Op) : List Book := ops.foldl applyOp []

/-! ## Basic lemmas about the handlers -/

theorem wrap32_eq_self {n : Nat} (h : n < 2 ^ 31) : wrap32 n = n := by
  unfold wrap32
  have hm : (n + 2 ^ 31) % 2 ^ 32 = n + 2 ^ 31 := Nat.mod_eq_of_lt (by omega)
  rw [hm]; push_cast; ring

theorem wrap32_inj {a b : Nat} (ha1 : 1 ≤ a) (ha : a ≤ 2 ^ 32)
    (hb1 : 1 ≤ b) (hb : b ≤ 2 ^ 32) (h : wrap32 a = wrap32 b) : a = b := by
  unfold wrap32 at h
  have h2 : (a + 2 ^ 31) % 2 ^ 32 = (b + 2 ^ 31) % 2 ^ 32 := by omega
  omega

theorem create_book_eq (nb : NewBook) (s : List Book) :
    create_book nb s =
      (Response.created ⟨wrap32 (s.length + 1), nb.title, nb.author⟩,
       s ++ [⟨wrap32 (s.length + 1), nb.title, nb.author⟩]) := rfl

theorem find?_first (id : Int) (l₁ l₂ : List Book) (b : Book)
    (h₁ : ∀ b' ∈ l₁, b'.id ≠ id) (h₂ : b.id = id) :
    (l₁ ++ b :: l₂).find? (fun x => x.id == id) = some b := by
  induction l₁ with
  | nil => simp [List.find?, h₂]
  | cons a l ih =>
    have ha : (a.id == id) = false := by
      simp only [beq_eq_false_iff_ne, ne_eq]
      exact h₁ a (List.mem_cons_self a l)
    simp only [List.cons_append, List.find?, ha]
    exact ih fun b' hb' => h₁ b' (List.mem_cons_of_mem a hb')

theorem get_book_first (id : Int) (l₁ l₂ : List Book) (b : Book)
    (h₁ : ∀ b' ∈ l₁, b'.id ≠ id) (h₂ : b.id = id) :
    get_book id (l₁ ++ b :: l₂) = (Response.okBook b, l₁ ++ b :: l₂) := by
  unfold get_book
  rw [find?_first id l₁ l₂ b h₁ h₂]

theorem get_book_none (id : Int) (s : List Book) (h : ∀ b ∈ s, b.id ≠ id) :
    get_book id s = (Response.notFound "Book not found", s) := by
  unfold get_book
  have : s.find? (fun x => x.id == id) = none := by
    rw [List.find?_eq_none]
    intro x hx
    simpa using h x hx
  rw [this]

theorem update_book_cons (id : Int) (nb : NewBook) (b : Book) (rest : List Book) :
    update_book id nb (b :: rest) =
      if b.id == id then
        (Response.okBook ⟨b.id, nb.title, nb.author⟩,
         ⟨b.id, nb.title, nb.author⟩ :: rest)
      else ((update_book id nb rest).1, b :: (update_book id nb rest).2) := rfl

theorem update_book_first (id : Int) (nb : NewBook) (l₁ l₂ : List Book) (b : Book)
    (h₁ : ∀ b' ∈ l₁, b'.id ≠ id) (h₂ : b.id = id) :
    update_book id nb (l₁ ++ b :: l₂) =
      (Response.okBook ⟨b.id, nb.title, nb.author⟩,
       l₁ ++ ⟨b.id, nb.title, nb.author⟩ :: l₂) := by
  induction l₁ with
  | nil =>
    rw [List.nil_append, update_book_cons]
    simp [h₂]
  | cons a l ih =>
    have ha : (a.id == id) = false := by
      simp only [beq_eq_false_iff_ne, ne_eq]
      exact h₁ a (List.mem_cons_self a l)
    have ih' := ih fun b' hb' => h₁ b' (List.mem_cons_of_mem a hb')
    rw [List.cons_append, update_book_cons, ha]
    simp [ih']

theorem update_book_none (id : Int) (nb : NewBook) (s : List Book)
    (h : ∀ b ∈ s, b.id ≠ id) :
    update_book id nb s = (Response.notFound "Book not found", s) := by
  induction s with
  | nil => rfl
  | cons a l ih =>
    have ha : (a.id == id) = false := by
      simp only [beq_eq_false_iff_ne, ne_eq]
      exact h a (List.mem_cons_self a l)
    have ih' := ih fun b' hb' => h b' (List.mem_cons_of_mem a hb')
    rw [update_book_cons, ha]
    simp [ih']

theorem update_book_map_id (id : Int) (nb : NewBook) (s : List Book) :
    ((update_book id nb s).2).map Book.id = s.map Book.id := by
  induction s with
  | nil => rfl
  | cons a l ih =>
    rw [update_book_cons]
    by_cases ha : (a.id == id) = true
    · simp [ha]
    · simp [ha, ih]

theorem findIdx?_shift (p : Book → Bool) (l : List Book) (i : Nat) :
    l.findIdx? p (i + 1) = (l.findIdx? p i).map (· + 1) := by
  induction l generalizing i with
  | nil => rfl
  | cons a t ih =>
    rw [List.findIdx?_cons, List.findIdx?_cons]
    by_cases hp : p a = true
    · simp [hp]
    · simp only [hp, Bool.false_eq_true, if_false]
      exact ih (i + 1)

theorem delete_book_cons (id : Int) (b : Book) (rest : List Book) :
    delete_book id (b :: rest) =
      if b.id == id then (Response.okText "Book deleted", rest)
      else ((delete_book id rest).1, b :: (delete_book id rest).2) := by
  unfold delete_book
  rw [List.findIdx?_cons]
  by_cases hb : (b.id == id) = true
  · simp [hb]
  · simp only [hb, Bool.false_eq_true, if_false]
    rw [findIdx?_shift]
    cases h : rest.findIdx? (fun x => x.id == id) 0 with
    | none => simp
    | some i => simp [List.eraseIdx]

theorem delete_book_first (id : Int) (l₁ l₂ : List Book) (b : Book)
    (h₁ : ∀ b' ∈ l₁, b'.id ≠ id) (h₂ : b.id = id) :
    delete_book id (l₁ ++ b :: l₂) = (Response.okText "Book deleted", l₁ ++ l₂) := by
  induction l₁ with
  | nil =>
    rw [List.nil_append, delete_book_cons]
    simp [h₂]
  | cons a l ih =>
    have ha : (a.id == id) = false := by
      simp only [beq_eq_false_iff_ne, ne_eq]
      exact h₁ a (List.mem_cons_self a l)
    have ih' := ih fun b' hb' => h₁ b' (List.mem_cons_of_mem a hb')
    rw [List.cons_append, delete_book_cons, ha]
    simp [ih']

theorem delete_book_none (id : Int) (s : List Book) (h : ∀ b ∈ s, b.id ≠ id) :
    delete_book id s = (Response.notFound "Book not found", s) := by
  induction s with
  | nil => rfl
  | cons a l ih =>
    have ha : (a.id == id) = false := by
      simp only [beq_eq_false_iff_ne, ne_eq]
      exact h a (List.mem_cons_self a l)
    have ih' := ih fun b' hb' => h b' (List.mem_cons_of_mem a hb')
    rw [delete_book_cons, ha]
    simp [ih']

/-! ## Canonical id shape of delete-free executions -/

/-- The ids of a store of n books filled without any deletion are the
32-bit wraps of 1..n, in order. -/
def canonicalIds (s : List Book) : Prop :=
  s.map Book.id = (List.range s.length).map fun k => wrap32 (k + 1)

theorem delete_book_length_le (id : Int) (s : List Book) :
    ((delete_book id s).2).length ≤ s.length := by
  induction s with
  | nil => simp [delete_book]
  | cons a l ih =>
    rw [delete_book_cons]
    by_cases ha : (a.id == id) = true
    · simp [ha]
    · simp only [ha, Bool.false_eq_true, if_false, List.length_cons]
      omega

theorem applyOp_length_le (s : List Book) (op : Op) :
    (applyOp s op).length ≤ s.length + 1 := by
  cases op with
  | create nb =>
    simp [applyOp, create_book_eq]
  | update id nb =>
    have h := congrArg List.length (update_book_map_id id nb s)
    simp only [List.length_map] at h
    simp [applyOp, h]
  | delete id =>
    have := delete_book_length_le id s
    simp only [applyOp]
    omega

theorem foldl_length_le (ops : List Op) (s : List Book) :
    (ops.foldl applyOp s).length ≤ s.length + ops.length := by
  induction ops generalizing s with
  | nil => simp
  | cons op rest ih =>
    calc (List.foldl applyOp (applyOp s op) rest).length
        ≤ (applyOp s op).length + rest.length := ih (applyOp s op)
      _ ≤ s.length + 1 + rest.length := by
          have := applyOp_length_le s op; omega
      _ = s.length + (op :: rest).length := by simp; omega

theorem applyOp_canonical (s : List Book) (op : Op) (hop : op.isDelete = false)
    (h : canonicalIds s) : canonicalIds (applyOp s op) := by
  cases op with
  | create nb =>
    unfold canonicalIds at h ⊢
    simp only [applyOp, create_book_eq, List.map_append, List.length_append,
      List.map_cons, List.map_nil, List.length_cons, List.length_nil]
    have hr : List.range (s.length + 1) = List.range s.length ++ [s.length] :=
      List.range_succ s.length
    rw [show s.length + (0 + 1) = s.length + 1 by omega, hr, List.map_append, h]
    simp
  | update id nb =>
    unfold canonicalIds at h ⊢
    have hm := update_book_map_id id nb s
    have hl : ((update_book id nb s).2).length = s.length := by
      have := congrArg List.length hm
      simpa using this
    simp only [applyOp, hm, hl, h]
  | delete id => simp [Op.isDelete] at hop

theorem foldl_canonical (ops : List Op) (s : List Book)
    (hops : ∀ op ∈ ops, op.isDelete = false) (h : canonicalIds s) :
    canonicalIds (ops.foldl applyOp s) := by
  induction ops generalizing s with
  | nil => simpa using h
  | cons op rest ih =>
    rw [List.foldl_cons]
    exact ih (applyOp s op)
      (fun o ho => hops o (List.mem_cons_of_mem op ho))
      (applyOp_canonical s op (hops op (List.mem_cons_self op rest)) h)

theorem run_canonical (ops : List Op) (hops : ∀ op ∈ ops, op.isDelete = false) :
    canonicalIds (run ops) := by
  unfold run
  exact foldl_canonical ops [] hops (by simp [canonicalIds])

theorem canonical_pairwise_ne (s : List Book) (h : canonicalIds s)
    (hlen : s.length ≤ 2 ^ 32) :
    s.Pairwise fun a b => a.id ≠ b.id := by
  have hnd : (s.map Book.id).Nodup := by
    rw [h]
    refine List.Nodup.map_on ?_ (List.nodup_range s.length)
    intro x hx y hy hxy
    rw [List.mem_range] at hx hy
    have := wrap32_inj (a := x + 1) (b := y + 1)
      (by omega) (by omega) (by omega) (by omega) hxy
    omega
  rw [List.Nodup, List.pairwise_map] at hnd
  exact hnd

/-! ## Claim theorems -/

/-- Claim C1, amended: for every store with fewer than 2 ^ 31 - 1 books,
create assigns the new book the id (current count) + 1, appends it at
the end of the collection, and returns it with a 201 response; it never
fails.  (At exactly 2 ^ 31 - 1 books the i32 id computation wraps, see
the counterexample.) -/
theorem create_assigns_count_plus_one (nb : NewBook) (s : List Book)
    (h : s.length + 1 < 2 ^ 31) :
    create_book nb s =
      (Response.created ⟨(s.length : Int) + 1, nb.title, nb.author⟩,
       s ++ [⟨(s.length : Int) + 1, nb.title, nb.author⟩]) := by
  rw [create_book_eq]
  have hw : wrap32 (s.length + 1) = (s.length : Int) + 1 := by
    have := wrap32_eq_self (n := s.length + 1) h
    simpa using this
  rw [hw]

/-- Witness for C1: on the empty store, create returns the book with id 1. -/
theorem create_assigns_count_plus_one_witness :
    ([] : List Book).length + 1 < 2 ^ 31 ∧
    create_book ⟨"T", "A"⟩ [] =
      (Response.created ⟨1, "T", "A"⟩, [⟨1, "T", "A"⟩]) := by
  constructor
  · decide
  · have := create_assigns_count_plus_one ⟨"T", "A"⟩ [] (by decide)
    simpa using this

/-- Claim C1 fails as literally stated: at a store of 2 ^ 31 - 1 books the
created id is the wrapped value -2 ^ 31, not (current count) + 1. -/
theorem create_id_overflow_counterexample :
    (create_book ⟨"T", "A"⟩ (List.replicate (2 ^ 31 - 1) ⟨1, "X", "Y"⟩)).1 ≠
      Response.created
        ⟨((List.replicate (2 ^ 31 - 1) (⟨1, "X", "Y"⟩ : Book)).length : Int) + 1,
         "T", "A"⟩ := by
  intro h
  rw [create_book_eq] at h
  simp only [List.length_replicate, Response.created.injEq, Book.mk.injEq] at h
  obtain ⟨h1, -, -⟩ := h
  unfold wrap32 at h1
  norm_num at h1

/-- Claim C2: on a store holding exactly the books with ids 1 and 2,
delete(1) succeeds, and a following create issues id 2 — the new count —
so the issued id collides with the id of the remaining book. -/
theorem id_reuse_after_delete (s : List Book) (nb : NewBook)
    (h : s.map Book.id = [1, 2]) :
    (delete_book 1 s).1 = Response.okText "Book deleted" ∧
    (create_book nb (delete_book 1 s).2).1 =
      Response.created ⟨2, nb.title, nb.author⟩ ∧
    ((create_book nb (delete_book 1 s).2).2).map Book.id = [2, 2] := by
  match s with
  | [] => simp at h
  | [_] => simp at h
  | b₁ :: b₂ :: _ :: _ => simp at h
  | [b₁, b₂] =>
    simp only [List.map_cons, List.map_nil, List.cons.injEq, and_true] at h
    obtain ⟨h1, h2⟩ := h
    have hd : delete_book 1 [b₁, b₂] = (Response.okText "Book deleted", [b₂]) := by
      rw [delete_book_cons]
      simp [h1]
    rw [hd]
    have hw : wrap32 ([b₂].length + 1) = 2 := by norm_num [wrap32]
    refine ⟨rfl, ?_, ?_⟩
    · rw [create_book_eq, hw]
    · rw [create_book_eq, hw]
      simp [h2]

/-- Witness for C2 at a concrete two-book store. -/
theorem id_reuse_after_delete_witness :
    ([⟨1, "A", "B"⟩, ⟨2, "C", "D"⟩] : List Book).map Book.id = [1, 2] ∧
    ((create_book ⟨"E", "F"⟩
        (delete_book 1 [⟨1, "A", "B"⟩, ⟨2, "C", "D"⟩]).2).2).map Book.id =
      [2, 2] :=
  ⟨by decide,
   (id_reuse_after_delete [⟨1, "A", "B"⟩, ⟨2, "C", "D"⟩] ⟨"E", "F"⟩ (by decide)).2.2⟩

/-- Claim C3 fails as stated: the state reached by create, create,
delete 1, create holds two books that both carry id 2. -/
theorem duplicate_id_counterexample :
    ¬ (run [Op.create ⟨"T", "A"⟩, Op.create ⟨"T", "A"⟩, Op.delete 1,
            Op.create ⟨"T", "A"⟩]).Pairwise (fun a b => a.id ≠ b.id) := by
  intro h
  have hrun : run [Op.create ⟨"T", "A"⟩, Op.create ⟨"T", "A"⟩, Op.delete 1,
      Op.create ⟨"T", "A"⟩] = [⟨2, "T", "A"⟩, ⟨2, "T", "A"⟩] := by decide
  rw [hrun] at h
  rcases List.pairwise_cons.mp h with ⟨h1, -⟩
  exact h1 _ (List.mem_cons_self _ _) rfl

/-- Claim C3, amended: in every store state reachable from the empty
store by a sequence of at most 2 ^ 32 create and update requests — no
deletes — all stored books carry pairwise distinct ids.  After a delete
a later create can reissue a live id, so the claim does not hold for
arbitrary sequences. -/
theorem unique_ids_without_delete (ops : List Op)
    (h1 : ∀ op ∈ ops, op.isDelete = false) (h2 : ops.length ≤ 2 ^ 32) :
    (run ops).Pairwise fun a b => a.id ≠ b.id := by
  have hc := run_canonical ops h1
  have hlen : (run ops).length ≤ 2 ^ 32 := by
    have hle := foldl_length_le ops []
    unfold run
    simp only [List.length_nil, Nat.zero_add] at hle
    omega
  exact canonical_pairwise_ne (run ops) hc hlen

/-- Witness for the amended C3 on two concrete create requests. -/
theorem unique_ids_without_delete_witness :
    (∀ op ∈ [Op.create ⟨"T", "A"⟩, Op.create ⟨"B", "C"⟩], op.isDelete = false) ∧
    ([Op.create ⟨"T", "A"⟩, Op.create ⟨"B", "C"⟩] : List Op).length ≤ 2 ^ 32 ∧
    (run [Op.create ⟨"T", "A"⟩, Op.create ⟨"B", "C"⟩]).Pairwise
      fun a b => a.id ≠ b.id :=
  ⟨by decide, by decide,
   unique_ids_without_delete [Op.create ⟨"T", "A"⟩, Op.create ⟨"B", "C"⟩]
     (by decide) (by decide)⟩

/-- Claim C4 fails as stated: in the reachable store [⟨2, X, Y⟩]
(create, create, delete 1), a create returns B with id 2, but get(2)
afterwards returns the older book with id 2, whose fields differ from B. -/
theorem get_roundtrip_counterexample :
    (create_book ⟨"T", "A"⟩
        (run [Op.create ⟨"T1", "A1"⟩, Op.create ⟨"X", "Y"⟩, Op.delete 1])).1 =
      Response.created ⟨2, "T", "A"⟩ ∧
    (get_book 2
        (create_book ⟨"T", "A"⟩
          (run [Op.create ⟨"T1", "A1"⟩, Op.create ⟨"X", "Y"⟩,
                Op.delete 1])).2).1 =
      Response.okBook ⟨2, "X", "Y"⟩ ∧
    (⟨2, "X", "Y"⟩ : Book) ≠ ⟨2, "T", "A"⟩ := by decide

/-- Claim C4, amended: after create(title, author) returns Book B,
get(B.id) returns a Book with identical title, author and id, provided
no book stored before the create already carries the id that the create
issues; in general get returns the first stored book with that id. -/
theorem get_roundtrip_after_create (s : List Book) (nb : NewBook)
    (h : ∀ b ∈ s, b.id ≠ wrap32 (s.length + 1)) :
    (create_book nb s).1 =
      Response.created ⟨wrap32 (s.length + 1), nb.title, nb.author⟩ ∧
    get_book (wrap32 (s.length + 1)) (create_book nb s).2 =
      (Response.okBook ⟨wrap32 (s.length + 1), nb.title, nb.author⟩,
       (create_book nb s).2) := by
  constructor
  · rw [create_book_eq]
  · have hg := get_book_first (wrap32 (s.length + 1)) s []
      ⟨wrap32 (s.length + 1), nb.title, nb.author⟩ h rfl
    rw [create_book_eq]
    exact hg

/-- Witness for the amended C4 on the empty store. -/
theorem get_roundtrip_after_create_witness :
    (∀ b ∈ ([] : List Book), b.id ≠ wrap32 (([] : List Book).length + 1)) ∧
    get_book (wrap32 (([] : List Book).length + 1))
        (create_book ⟨"T", "A"⟩ []).2 =
      (Response.okBook ⟨wrap32 (([] : List Book).length + 1), "T", "A"⟩,
       (create_book ⟨"T", "A"⟩ []).2) :=
  ⟨by simp,
   (get_roundtrip_after_create [] ⟨"T", "A"⟩ (by simp)).2⟩

/-- Claim C5: when no stored book carries the requested id, get, update
and delete all answer 404 "Book not found" and leave the store exactly
as it was. -/
theorem notfound_is_pure (s : List Book) (id : Int) (nb : NewBook)
    (h : ∀ b ∈ s, b.id ≠ id) :
    get_book id s = (Response.notFound "Book not found", s) ∧
    update_book id nb s = (Response.notFound "Book not found", s) ∧
    delete_book id s = (Response.notFound "Book not found", s) :=
  ⟨get_book_none id s h, update_book_none id nb s h, delete_book_none id s h⟩

/-- Witness for C5 on a populated store and an absent id. -/
theorem notfound_is_pure_witness :
    (∀ b ∈ ([⟨1, "T", "A"⟩] : List Book), b.id ≠ 7) ∧
    get_book 7 [⟨1, "T", "A"⟩] =
      (Response.notFound "Book not found", [⟨1, "T", "A"⟩]) ∧
    update_book 7 ⟨"U", "V"⟩ [⟨1, "T", "A"⟩] =
      (Response.notFound "Book not found", [⟨1, "T", "A"⟩]) ∧
    delete_book 7 [⟨1, "T", "A"⟩] =
      (Response.notFound "Book not found", [⟨1, "T", "A"⟩]) :=
  ⟨by decide,
   (notfound_is_pure [⟨1, "T", "A"⟩] 7 ⟨"U", "V"⟩ (by decide)).1,
   (notfound_is_pure [⟨1, "T", "A"⟩] 7 ⟨"U", "V"⟩ (by decide)).2.1,
   (notfound_is_pure [⟨1, "T", "A"⟩] 7 ⟨"U", "V"⟩ (by decide)).2.2⟩

/-- Claim C6: update(id, title, author) overwrites both fields of the
stored book with that id in place — id unchanged, neighbours untouched,
never a partial-field write — and returns the updated book; when no
book carries the id it answers 404 and changes nothing. -/
theorem update_semantics (id : Int) (nb : NewBook) (l₁ l₂ s : List Book)
    (b : Book) (h₁ : ∀ b' ∈ l₁, b'.id ≠ id) (h₂ : b.id = id)
    (h₃ : ∀ b' ∈ s, b'.id ≠ id) :
    update_book id nb (l₁ ++ b :: l₂) =
      (Response.okBook ⟨id, nb.title, nb.author⟩,
       l₁ ++ ⟨id, nb.title, nb.author⟩ :: l₂) ∧
    update_book id nb s = (Response.notFound "Book not found", s) := by
  constructor
  · have hu := update_book_first id nb l₁ l₂ b h₁ h₂
    rw [h₂] at hu
    exact hu
  · exact update_book_none id nb s h₃

/-- Witness for C6: a hit overwrites both fields of the matched book, a
miss answers 404. -/
theorem update_semantics_witness :
    (∀ b' ∈ ([⟨1, "a", "b"⟩] : List Book), b'.id ≠ 5) ∧
    (⟨5, "c", "d"⟩ : Book).id = 5 ∧
    (∀ b' ∈ ([⟨1, "a", "b"⟩, ⟨3, "e", "f"⟩] : List Book), b'.id ≠ 5) ∧
    update_book 5 ⟨"T2", "A2"⟩ ([⟨1, "a", "b"⟩] ++ ⟨5, "c", "d"⟩ :: [⟨7, "g", "h"⟩]) =
      (Response.okBook ⟨5, "T2", "A2"⟩,
       [⟨1, "a", "b"⟩] ++ ⟨5, "T2", "A2"⟩ :: [⟨7, "g", "h"⟩]) ∧
    update_book 5 ⟨"T2", "A2"⟩ [⟨1, "a", "b"⟩, ⟨3, "e", "f"⟩] =
      (Response.notFound "Book not found", [⟨1, "a", "b"⟩, ⟨3, "e", "f"⟩]) :=
  ⟨by decide, rfl, by decide,
   (update_semantics 5 ⟨"T2", "A2"⟩ [⟨1, "a", "b"⟩] [⟨7, "g", "h"⟩]
     [⟨1, "a", "b"⟩, ⟨3, "e", "f"⟩] ⟨5, "c", "d"⟩ (by decide) rfl (by decide)).1,
   (update_semantics 5 ⟨"T2", "A2"⟩ [⟨1, "a", "b"⟩] [⟨7, "g", "h"⟩]
     [⟨1, "a", "b"⟩, ⟨3, "e", "f"⟩] ⟨5, "c", "d"⟩ (by decide) rfl (by decide)).2⟩

/-- Claim C7: delete(id) removes exactly the matched record, keeps the
remaining books in their previous relative order with no change to
their fields, and signals success; when no book carries the id it
answers 404 and changes nothing. -/
theorem delete_semantics (id : Int) (l₁ l₂ s : List Book) (b : Book)
    (h₁ : ∀ b' ∈ l₁, b'.id ≠ id) (h₂ : b.id = id)
    (h₃ : ∀ b' ∈ s, b'.id ≠ id) :
    delete_book id (l₁ ++ b :: l₂) = (Response.okText "Book deleted", l₁ ++ l₂) ∧
    delete_book id s = (Response.notFound "Book not found", s) :=
  ⟨delete_book_first id l₁ l₂ b h₁ h₂, delete_book_none id s h₃⟩

/-- Witness for C7: deleting id 5 removes only the matched middle book. -/
theorem delete_semantics_witness :
    (∀ b' ∈ ([⟨1, "a", "b"⟩] : List Book), b'.id ≠ 5) ∧
    (⟨5, "c", "d"⟩ : Book).id = 5 ∧
    (∀ b' ∈ ([⟨9, "i", "j"⟩] : List Book), b'.id ≠ 5) ∧
    delete_book 5 ([⟨1, "a", "b"⟩] ++ ⟨5, "c", "d"⟩ :: [⟨7, "g", "h"⟩]) =
      (Response.okText "Book deleted", [⟨1, "a", "b"⟩] ++ [⟨7, "g", "h"⟩]) ∧
    delete_book 5 [⟨9, "i", "j"⟩] =
      (Response.notFound "Book not found", [⟨9, "i", "j"⟩]) :=
  ⟨by decide, rfl, by decide,
   (delete_semantics 5 [⟨1, "a", "b"⟩] [⟨7, "g", "h"⟩] [⟨9, "i", "j"⟩]
     ⟨5, "c", "d"⟩ (by decide) rfl (by decide)).1,
   (delete_semantics 5 [⟨1, "a", "b"⟩] [⟨7, "g", "h"⟩] [⟨9, "i", "j"⟩]
     ⟨5, "c", "d"⟩ (by decide) rfl (by decide)).2⟩

/-- Claim C8: list returns the snapshot of all stored books in their
current internal order and leaves the state untouched, so two
consecutive calls with no intervening mutation return identical
sequences. -/
theorem list_is_snapshot (s : List Book) :
    get_books s = (Response.okBooks s, s) ∧
    (get_books (get_books s).2).1 = (get_books s).1 :=
  ⟨rfl, rfl⟩

/-- Claim C10: when several stored books share an id (as happens after a
delete followed by a create), get, update and delete all act on the
first book with that id in the current order; every later book with the
same id is left untouched. -/
theorem first_match_on_duplicates (id : Int) (nb : NewBook)
    (l₁ l₂ : List Book) (b b₂ : Book) (h₁ : ∀ b' ∈ l₁, b'.id ≠ id)
    (h₂ : b.id = id) (_hdup : b₂ ∈ l₂) (_hdup2 : b₂.id = id) :
    get_book id (l₁ ++ b :: l₂) = (Response.okBook b, l₁ ++ b :: l₂) ∧
    update_book id nb (l₁ ++ b :: l₂) =
      (Response.okBook ⟨id, nb.title, nb.author⟩,
       l₁ ++ ⟨id, nb.title, nb.author⟩ :: l₂) ∧
    delete_book id (l₁ ++ b :: l₂) = (Response.okText "Book deleted", l₁ ++ l₂) := by
  refine ⟨get_book_first id l₁ l₂ b h₁ h₂, ?_,
    delete_book_first id l₁ l₂ b h₁ h₂⟩
  have hu := update_book_first id nb l₁ l₂ b h₁ h₂
  rw [h₂] at hu
  exact hu

/-- Witness for C10 on the duplicated store [⟨2, X, Y⟩, ⟨2, T, A⟩]. -/
theorem first_match_on_duplicates_witness :
    (∀ b' ∈ ([] : List Book), b'.id ≠ 2) ∧
    (⟨2, "X", "Y"⟩ : Book).id = 2 ∧
    (⟨2, "T", "A"⟩ : Book) ∈ ([⟨2, "T", "A"⟩] : List Book) ∧
    (⟨2, "T", "A"⟩ : Book).id = 2 ∧
    get_book 2 ([] ++ ⟨2, "X", "Y"⟩ :: [⟨2, "T", "A"⟩]) =
      (Response.okBook ⟨2, "X", "Y"⟩, [] ++ ⟨2, "X", "Y"⟩ :: [⟨2, "T", "A"⟩]) ∧
    update_book 2 ⟨"N", "M"⟩ ([] ++ ⟨2, "X", "Y"⟩ :: [⟨2, "T", "A"⟩]) =
      (Response.okBook ⟨2, "N", "M"⟩, [] ++ ⟨2, "N", "M"⟩ :: [⟨2, "T", "A"⟩]) ∧
    delete_book 2 ([] ++ ⟨2, "X", "Y"⟩ :: [⟨2, "T", "A"⟩]) =
      (Response.okText "Book deleted", ([] : List Book) ++ [⟨2, "T", "A"⟩]) :=
  ⟨by decide, rfl, by decide, rfl,
   (first_match_on_duplicates 2 ⟨"N", "M"⟩ [] [⟨2, "T", "A"⟩] ⟨2, "X", "Y"⟩
     ⟨2, "T", "A"⟩ (by decide) rfl (by decide) rfl).1,
   (first_match_on_duplicates 2 ⟨"N", "M"⟩ [] [⟨2, "T", "A"⟩] ⟨2, "X", "Y"⟩
     ⟨2, "T", "A"⟩ (by decide) rfl (by decide) rfl).2.1,
   (first_match_on_duplicates 2 ⟨"N", "M"⟩ [] [⟨2, "T", "A"⟩] ⟨2, "X", "Y"⟩
     ⟨2, "T", "A"⟩ (by decide) rfl (by decide) rfl).2.2⟩
